import Mathlib

/-!
Verification of the OAuth2 credential-lifecycle manager of PersonalizationMCP.

The Python sources in `platforms/{reddit,spotify,youtube}` are shallowly
embedded here.  Times are modelled as `Int` (unix seconds); a stored token
file is an `Option TokenRecord` (`none` = file absent / unreadable); the
provider's token endpoint is modelled by an `Option RefreshResponse`
parameter (`none` = transport failure / exception raised during the HTTP
call, `some r` = the parsed JSON body, whose `access_token` field is absent
exactly when the provider answered with an error body such as
`invalid_grant`).  File writes are assumed to succeed.  Each resolver
returns, besides its Python return value, instrumentation counters: how
many times the token file was loaded and how many network refresh calls
were issued.
-/

namespace PersonalizationMCP

/-- A stored token record (the JSON object persisted in
`*_tokens.json`).  Every field is optional, mirroring dictionary keys that
may be absent. -/
structure TokenRecord where
  access_token : Option String := none
  refresh_token : Option String := none
  expires_in : Option Int := none
  refreshed_at : Option Int := none
  expires_at : Option Int := none
  client_id : Option String := none
  client_secret : Option String := none
  deriving Repr, DecidableEq

/-- The parsed JSON body returned by a provider's token endpoint. -/
structure RefreshResponse where
  access_token : Option String := none
  refresh_token : Option String := none
  expires_in : Option Int := none
  deriving Repr, DecidableEq

/-- The token record built from a bare token-endpoint response
(`new_tokens` in the Python sources): only the response's own keys are
present. -/
def recordOfResponse (r : RefreshResponse) : TokenRecord :=
  { access_token := r.access_token
    refresh_token := r.refresh_token
    expires_in := r.expires_in }

/-- Python `tokens.update(result)`: keys present in the response overwrite
the stored record, keys absent from the response keep their stored value.
(`youtube_token_manager.py` line 78.) -/
def dictUpdate (old : TokenRecord) (r : RefreshResponse) : TokenRecord :=
  { old with
    access_token := (r.access_token).or old.access_token
    refresh_token := (r.refresh_token).or old.refresh_token
    expires_in := (r.expires_in).or old.expires_in }

/-- Result of a token-manager operation: the Python return value plus
instrumentation (token-file loads performed, refresh network calls issued)
and the token file's state afterwards. -/
structure MOut where
  token : Option String
  loads : Nat
  netCalls : Nat
  store : Option TokenRecord
  deriving Repr, DecidableEq

/-! ## Reddit (`platforms/reddit/reddit_token_manager.py`) -/

/-- `RedditTokenManager.save_tokens`: adds `expires_at = now + expires_in`
when the response carries `expires_in`, and always stamps
`refreshed_at = now`, then writes the dictionary as given (lines 27-42). -/
def redditSaveTokens (tokens : TokenRecord) (now : Int) : TokenRecord :=
  let t1 := match tokens.expires_in with
    | some e => { tokens with expires_at := some (now + e) }
    | none => tokens
  { t1 with refreshed_at := some now }

/-- `RedditTokenManager._refresh_token` (lines 82-120): requires the
environment client credentials (`credsOk`), issues the refresh call, and on
a response containing `access_token` saves **the response dictionary
alone** via `save_tokens` and returns the new token; any other outcome
returns `None` without touching the store. -/
def reddit_refresh_token (credsOk : Bool) (net : Option RefreshResponse)
    (now : Int) (store : Option TokenRecord) : MOut :=
  if ¬ credsOk then ⟨none, 0, 0, store⟩
  else
    match net with
    | none => ⟨none, 0, 1, store⟩
    | some r =>
      match r.access_token with
      | some t => ⟨some t, 0, 1, some (redditSaveTokens (recordOfResponse r) now)⟩
      | none => ⟨none, 0, 1, store⟩

/-- `RedditTokenManager.get_valid_access_token` (lines 60-80): loads the
token file; if `now < expires_at - 300` returns the stored `access_token`;
otherwise refreshes via the stored `refresh_token` when present, else
returns `None`. -/
def reddit_get_valid_access_token (store : Option TokenRecord)
    (credsOk : Bool) (net : Option RefreshResponse) (now : Int) : MOut :=
  match store with
  | none => ⟨none, 1, 0, store⟩
  | some tokens =>
    let expires_at := tokens.expires_at.getD 0
    if now < expires_at - 300 then ⟨tokens.access_token, 1, 0, store⟩
    else
      match tokens.refresh_token with
      | some _ =>
        let o := reddit_refresh_token credsOk net now store
        ⟨o.token, o.loads + 1, o.netCalls, o.store⟩
      | none => ⟨none, 1, 0, store⟩

/-! ## Spotify (`platforms/spotify/spotify_token_manager.py`) -/

/-- `SpotifyTokenManager.save_tokens` (lines 21-33): adds
`expires_at = now + expires_in` when `expires_in` is present, then writes
the dictionary as given (no `refreshed_at` stamp). -/
def spotifySaveTokens (tokens : TokenRecord) (now : Int) : TokenRecord :=
  match tokens.expires_in with
  | some e => { tokens with expires_at := some (now + e) }
  | none => tokens

/-- `SpotifyTokenManager.is_token_expired` (lines 47-53): expired when
`expires_at` is absent, or when `now >= expires_at - 300`. -/
def spotify_is_token_expired (tokens : TokenRecord) (now : Int) : Bool :=
  match tokens.expires_at with
  | none => true
  | some e => now ≥ e - 300

/-- `SpotifyTokenManager.refresh_access_token` (lines 55-80): loads the
file, requires a stored `refresh_token` and the environment client
credentials, issues the refresh call; the response dictionary gets the old
`refresh_token` copied in when the response omits one, is saved, and its
`access_token` is returned.  A transport failure, or a saved response with
no `access_token` key (the subsequent indexing raises), yields `None`. -/
def spotify_refresh_access_token (store : Option TokenRecord)
    (credsOk : Bool) (net : Option RefreshResponse) (now : Int) : MOut :=
  match store with
  | none => ⟨none, 1, 0, store⟩
  | some tokens =>
    if tokens.refresh_token.isNone then ⟨none, 1, 0, store⟩
    else if ¬ credsOk then ⟨none, 1, 0, store⟩
    else
      match net with
      | none => ⟨none, 1, 1, store⟩
      | some r =>
        let r' := if r.refresh_token.isNone ∧ tokens.refresh_token.isSome then
            { r with refresh_token := tokens.refresh_token } else r
        let saved := spotifySaveTokens (recordOfResponse r') now
        match r'.access_token with
        | some t => ⟨some t, 1, 1, some saved⟩
        | none => ⟨none, 1, 1, some saved⟩

/-- `SpotifyTokenManager.get_valid_access_token` (lines 82-93): loads the
file; refreshes when `is_token_expired`, otherwise returns the stored
`access_token`. -/
def spotify_get_valid_access_token (store : Option TokenRecord)
    (credsOk : Bool) (net : Option RefreshResponse) (now : Int) : MOut :=
  match store with
  | none => ⟨none, 1, 0, store⟩
  | some tokens =>
    if spotify_is_token_expired tokens now then
      let o := spotify_refresh_access_token store credsOk net now
      ⟨o.token, o.loads + 1, o.netCalls, o.store⟩
    else ⟨tokens.access_token, 1, 0, store⟩

/-! ## YouTube (`platforms/youtube/youtube_token_manager.py`) -/

/-- The refresh predicate of `YouTubeTokenManager.get_valid_access_token`
(lines 117-128): with `expires_in` and `refreshed_at` defaulting to `0` and
`tsr = now - refreshed_at`, refresh is needed when `expires_in <= 300`, or
`tsr >= expires_in`, or `tsr >= 3300`, or `refreshed_at == 0`. -/
def youtubeNeedsRefresh (tokens : TokenRecord) (now : Int) : Bool :=
  let expires_in := tokens.expires_in.getD 0
  let refreshed_at := tokens.refreshed_at.getD 0
  let tsr := now - refreshed_at
  expires_in ≤ 300 ∨ tsr ≥ expires_in ∨ tsr ≥ 3300 ∨ refreshed_at = 0

/-- `YouTubeTokenManager._refresh_access_token` (lines 50-101): loads the
file, requires `client_id`, `client_secret` and `refresh_token` keys,
issues the refresh call; on a response containing `access_token` it does
`tokens.update(result)`, stamps `refreshed_at = now`, saves, and returns
the merged record; any other outcome returns `None`. -/
def youtube_refresh_access_token (store : Option TokenRecord)
    (net : Option RefreshResponse) (now : Int) : MOut :=
  match store with
  | none => ⟨none, 1, 0, store⟩
  | some tokens =>
    if tokens.client_id.isSome ∧ tokens.client_secret.isSome ∧
        tokens.refresh_token.isSome then
      match net with
      | none => ⟨none, 1, 1, store⟩
      | some r =>
        match r.access_token with
        | some t =>
          let merged := { dictUpdate tokens r with refreshed_at := some now }
          ⟨some t, 1, 1, some merged⟩
        | none => ⟨none, 1, 1, store⟩
    else ⟨none, 1, 0, store⟩

/-- `YouTubeTokenManager.get_valid_access_token` (lines 103-149): loads the
file (absent file or missing `access_token` key yields `None`); when the
refresh predicate fires it refreshes and returns the new token, falling
back to the **stored** `access_token` if the refresh returned `None`;
otherwise it returns the stored `access_token` unchanged. -/
def youtube_get_valid_access_token (store : Option TokenRecord)
    (net : Option RefreshResponse) (now : Int) : MOut :=
  match store with
  | none => ⟨none, 1, 0, store⟩
  | some tokens =>
    match tokens.access_token with
    | none => ⟨none, 1, 0, store⟩
    | some tok =>
      if youtubeNeedsRefresh tokens now then
        let o := youtube_refresh_access_token store net now
        match o.token with
        | some t => ⟨some t, o.loads + 1, o.netCalls, o.store⟩
        | none => ⟨some tok, o.loads + 1, o.netCalls, o.store⟩
      else ⟨some tok, 1, 0, store⟩

/-! ## MCP entry points (`spotify_mcp.py` / `youtube_mcp.py`,
`_get_valid_oauth_token`) -/

/-- Truthiness of Python's `s.strip()`: the stripped string is non-empty
exactly when `s` contains a non-whitespace character. -/
def pyStripTruthy (s : String) : Bool :=
  s.toList.any (fun c => ¬ c.isWhitespace)

/-- The Python guard
`access_token and access_token.strip() and access_token != "null"`
(spotify_mcp.py line 27 / youtube_mcp.py line 24): a caller-supplied
override counts only when it is a non-empty, non-whitespace string other
than the literal `"null"`. -/
def overrideValid (o : Option String) : Bool :=
  match o with
  | none => false
  | some s => s ≠ "" ∧ pyStripTruthy s ∧ s ≠ "null"

/-- Result of an MCP-level token resolution: the returned token plus
instrumentation (token-file loads, refresh network calls). -/
structure OOut where
  token : Option String
  loads : Nat
  netCalls : Nat
  deriving Repr, DecidableEq

/-- `_get_valid_oauth_token` in `spotify_mcp.py` (lines 18-44): a valid
override is returned immediately; otherwise the token manager is
consulted; otherwise the environment token is returned when it is a
non-empty, non-whitespace string (no `"null"` filter on this path);
otherwise `None`. -/
def spotify_get_valid_oauth_token (override : Option String)
    (store : Option TokenRecord) (credsOk : Bool)
    (net : Option RefreshResponse) (envTok : Option String) (now : Int) : OOut :=
  if overrideValid override then ⟨override, 0, 0⟩
  else
    let m := spotify_get_valid_access_token store credsOk net now
    match m.token with
    | some t => ⟨some t, m.loads, m.netCalls⟩
    | none =>
      match envTok with
      | some e => if e ≠ "" ∧ pyStripTruthy e then ⟨some e, m.loads, m.netCalls⟩
                  else ⟨none, m.loads, m.netCalls⟩
      | none => ⟨none, m.loads, m.netCalls⟩

/-- `_get_valid_oauth_token` in `youtube_mcp.py` (lines 15-41): identical
priority chain, delegating to the YouTube token manager. -/
def youtube_get_valid_oauth_token (override : Option String)
    (store : Option TokenRecord) (net : Option RefreshResponse)
    (envTok : Option String) (now : Int) : OOut :=
  if overrideValid override then ⟨override, 0, 0⟩
  else
    let m := youtube_get_valid_access_token store net now
    match m.token with
    | some t => ⟨some t, m.loads, m.netCalls⟩
    | none =>
      match envTok with
      | some e => if e ≠ "" ∧ pyStripTruthy e then ⟨some e, m.loads, m.netCalls⟩
                  else ⟨none, m.loads, m.netCalls⟩
      | none => ⟨none, m.loads, m.netCalls⟩

/-! ## Authorization-code completion
(`complete_reddit_oauth` in `reddit_mcp.py` lines 113-147,
`complete_spotify_oauth` in `spotify_mcp.py` lines 126-157) -/

/-- Outcome of an authorization-code completion tool call. -/
structure CompleteOut where
  exchangeAttempted : Bool
  securityError : Bool
  success : Bool
  store : Option TokenRecord
  deriving Repr, DecidableEq

/-- `complete_reddit_oauth`: builds the helper and immediately exchanges
the supplied authorization code (`exchange_code_for_tokens` receives only
the code); on success the raw token response is saved through
`RedditTokenManager.save_tokens`.  The tool takes no `state` argument and
performs no state comparison, so no path sets a security error. -/
def complete_reddit_oauth (net : Option RefreshResponse) (now : Int)
    (store : Option TokenRecord) : CompleteOut :=
  match net with
  | none => ⟨true, false, false, store⟩
  | some r => ⟨true, false, true, some (redditSaveTokens (recordOfResponse r) now)⟩

/-- The Reddit authorization-code callback as a whole flow:
`setup_reddit_oauth` generated the CSRF nonce `genState`
(`generate_auth_url`, reddit_oauth_helper.py lines 42-70) and the callback
arrived carrying `cbState` and the code; `complete_reddit_oauth` is then
invoked with the code alone, so both state values are ignored. -/
def redditOauthCallback (genState cbState code : String)
    (net : Option RefreshResponse) (now : Int)
    (store : Option TokenRecord) : CompleteOut :=
  complete_reddit_oauth net now store

/-- `complete_spotify_oauth`: exchanges the supplied authorization code
(`exchange_code_for_tokens` receives only the code) and saves the response
through `SpotifyTokenManager.save_tokens`; no `state` argument exists and
no state comparison is performed. -/
def complete_spotify_oauth (net : Option RefreshResponse) (now : Int)
    (store : Option TokenRecord) : CompleteOut :=
  match net with
  | none => ⟨true, false, false, store⟩
  | some r => ⟨true, false, true, some (spotifySaveTokens (recordOfResponse r) now)⟩

/-- The Spotify authorization-code callback as a whole flow; the generated
and received state values never reach `complete_spotify_oauth`. -/
def spotifyOauthCallback (genState cbState code : String)
    (net : Option RefreshResponse) (now : Int)
    (store : Option TokenRecord) : CompleteOut :=
  complete_spotify_oauth net now store

/-! ## Device-flow polling (`youtube_oauth_helper.py`, `poll_for_token`,
lines 41-92) -/

/-- One token-endpoint answer during device-flow polling. -/
inductive PollResponse where
  | granted (r : RefreshResponse)
  | pending
  | slowDown
  | otherError
  | exn
  deriving Repr, DecidableEq

/-- Whether an answer carries an `access_token` (the loop's success
test `if 'access_token' in result`). -/
def PollResponse.isGranted : PollResponse → Bool
  | .granted _ => true
  | _ => false

/-- Result of a polling run, carrying the total seconds slept. -/
inductive PollResult where
  | success (r : RefreshResponse) (elapsed : Nat)
  | authFailed (elapsed : Nat)
  | timeout (elapsed : Nat)
  deriving Repr, DecidableEq

/-- `poll_for_token`'s loop: at most `fuel` attempts remain
(`max_attempts = 60` at entry, `attempts` incremented on pending,
slow_down and exception; `interval` grows by one on each slow_down before
sleeping); an answer with `access_token` returns it, any other error body
returns the empty result at once, and exhausting the attempts returns the
timeout result.  `responses k` is the k-th network answer and `elapsed`
accumulates the seconds slept. -/
def pollLoop (responses : Nat → PollResponse) :
    Nat → Nat → Nat → Nat → PollResult
  | 0, _, _, elapsed => .timeout elapsed
  | fuel + 1, idx, interval, elapsed =>
    match responses idx with
    | .granted r => .success r elapsed
    | .pending => pollLoop responses fuel (idx + 1) interval (elapsed + interval)
    | .slowDown =>
        pollLoop responses fuel (idx + 1) (interval + 1) (elapsed + interval + 1)
    | .otherError => .authFailed elapsed
    | .exn => pollLoop responses fuel (idx + 1) interval (elapsed + interval)

/-- `poll_for_token client_id client_secret device_code interval`:
the loop starts with `max_attempts = 60`, `attempts = 0` and the given
interval (default 5). -/
def poll_for_token (responses : Nat → PollResponse) (interval : Nat := 5) :
    PollResult :=
  pollLoop responses 60 0 interval 0

/-! ## Auxiliary definitions and concrete instances used in the theorems -/

/-- The `refresh_token` field of a stored token file, when both exist. -/
def storeRefreshToken (s : Option TokenRecord) : Option String :=
  s.bind (fun t => t.refresh_token)

/-- A polling run that did not obtain an access token (either the
empty-result return on an error body, or the timeout return). -/
def PollResult.isFailure : PollResult → Bool
  | .success _ _ => false
  | _ => true

/-- A stored YouTube record whose token is long-lived (2 hours) and was
refreshed 3300 seconds before the probe instant. -/
def ytLongLived : TokenRecord :=
  { access_token := some "tokA", refresh_token := some "rt",
    client_id := some "cid", client_secret := some "cs",
    expires_in := some 7200, refreshed_at := some 1000 }

/-- A successful refresh reply carrying a rotated access token. -/
def ytRefreshReply : RefreshResponse :=
  { access_token := some "tokB", expires_in := some 3599 }

/-- A stored YouTube record holding a stale token long past expiry. -/
def ytStale : TokenRecord :=
  { access_token := some "staleTok", refresh_token := some "rt",
    client_id := some "cid", client_secret := some "cs",
    expires_in := some 3600, refreshed_at := some 100 }

/-- A permanent-error token-endpoint body (e.g. `invalid_grant` /
`access_denied`): HTTP succeeded but no `access_token` is present. -/
def ytDeniedReply : RefreshResponse := {}

/-- A stored Reddit record holding a refresh token, near expiry. -/
def redditOldRT : TokenRecord :=
  { access_token := some "a0", refresh_token := some "old_rt",
    expires_at := some 1000 }

/-- A refresh reply that includes a fresh access token but omits
`refresh_token`. -/
def redditReplyNoRT : RefreshResponse :=
  { access_token := some "a1", expires_in := some 3600 }

/-- A stored Spotify record holding a stale token near expiry. -/
def spotifyStale : TokenRecord :=
  { access_token := some "staleS", refresh_token := some "rtS",
    expires_at := some 1000 }

/-- A stored Spotify record with `refreshed_at` missing but a far-future
`expires_at`. -/
def spotifyNoRefreshedAt : TokenRecord :=
  { access_token := some "x", expires_at := some 10000 }

/-- A generic successful exchange reply. -/
def okReply : RefreshResponse :=
  { access_token := some "fresh", refresh_token := some "freshrt",
    expires_in := some 3600 }

/-- A fresh Reddit record (expiry far in the future). -/
def redditFresh : TokenRecord :=
  { access_token := some "ra0", expires_at := some 1000 }

/-- A fresh Spotify record (expiry far in the future). -/
def spotifyFresh : TokenRecord :=
  { access_token := some "sa0", expires_at := some 1000 }

/-- A fresh YouTube record (recently refreshed, one-hour validity). -/
def ytFresh : TokenRecord :=
  { access_token := some "ya0", expires_in := some 3600,
    refreshed_at := some 50 }

/-- A token-endpoint trace answering `slow_down` to every poll. -/
def allSlowDown : Nat → PollResponse := fun _ => PollResponse.slowDown

/-! ## Theorems -/

/-- C2: for every call to the token resolution entry point with an
explicit, non-empty (containing a non-whitespace character), non-sentinel
(not the literal string "null") override access_token argument, that exact
token string is returned immediately: no load from the credential store,
no expiry/freshness check, and no refresh network call, for both the
Spotify and the YouTube entry points. -/
theorem c2_override_returned_immediately (s : String)
    (h1 : s ≠ "") (h2 : pyStripTruthy s = true) (h3 : s ≠ "null")
    (store : Option TokenRecord) (credsOk : Bool) (net : Option RefreshResponse)
    (envTok : Option String) (now : Int) :
    spotify_get_valid_oauth_token (some s) store credsOk net envTok now
      = ⟨some s, 0, 0⟩ ∧
    youtube_get_valid_oauth_token (some s) store net envTok now
      = ⟨some s, 0, 0⟩ := by
  have hov : overrideValid (some s) = true := by
    simp [overrideValid, h1, h2, h3]
  exact ⟨by simp [spotify_get_valid_oauth_token, hov],
         by simp [youtube_get_valid_oauth_token, hov]⟩

/-- Witness for C2 at the concrete override "tok". -/
theorem c2_override_returned_immediately_witness :
    spotify_get_valid_oauth_token (some "tok") none true none none 0
      = ⟨some "tok", 0, 0⟩ ∧
    youtube_get_valid_oauth_token (some "tok") none none none 0
      = ⟨some "tok", 0, 0⟩ :=
  c2_override_returned_immediately "tok" (by decide) (by decide) (by decide)
    none true none none 0

/-- C10 counterexample: with no override, an empty store and the
environment variable set to the literal string "null", the Spotify entry
point returns "null" as the bearer token — the environment fallback path
has no "null" filter, so the claim's consequence that the literal string
"null" is never returned as a bearer token is false. -/
theorem c10_counterexample :
    (spotify_get_valid_oauth_token none none true none (some "null") 0).token
      = some "null" := by decide

/-- C10 (amended): an override access_token that is None, empty,
whitespace-only, or exactly "null" fails the override guard, and any
override failing the guard is treated as absent: the entry points resolve
exactly as when called with no override, falling through to the token
manager and then to the environment variable.  (The caller-supplied
sentinel itself is never returned, but the environment fallback is not
filtered for "null".) -/
theorem c10_blank_override_falls_through :
    overrideValid none = false ∧
    overrideValid (some "") = false ∧
    overrideValid (some "   ") = false ∧
    overrideValid (some "null") = false ∧
    (∀ (ov : Option String) (store : Option TokenRecord) (credsOk : Bool)
        (net : Option RefreshResponse) (envTok : Option String) (now : Int),
      overrideValid ov = false →
      spotify_get_valid_oauth_token ov store credsOk net envTok now
        = spotify_get_valid_oauth_token none store credsOk net envTok now) ∧
    (∀ (ov : Option String) (store : Option TokenRecord)
        (net : Option RefreshResponse) (envTok : Option String) (now : Int),
      overrideValid ov = false →
      youtube_get_valid_oauth_token ov store net envTok now
        = youtube_get_valid_oauth_token none store net envTok now) := by
  have hn : overrideValid none = false := by decide
  refine ⟨by decide, by decide, by decide, by decide, ?_, ?_⟩
  · intro ov store credsOk net envTok now h
    simp [spotify_get_valid_oauth_token, h, hn]
  · intro ov store net envTok now h
    simp [youtube_get_valid_oauth_token, h, hn]

/-- Witness for C10 at the concrete override "null". -/
theorem c10_blank_override_falls_through_witness :
    spotify_get_valid_oauth_token (some "null") none true none none 0
      = spotify_get_valid_oauth_token none none true none none 0 ∧
    youtube_get_valid_oauth_token (some "null") none none none 0
      = youtube_get_valid_oauth_token none none none none 0 :=
  ⟨c10_blank_override_falls_through.2.2.2.2.1 (some "null") none true none none 0
      (by decide),
   c10_blank_override_falls_through.2.2.2.2.2 (some "null") none none none 0
      (by decide)⟩

/-- C1 counterexample: a stored YouTube record refreshed 3300 seconds ago
with a 7200-second validity has remaining validity
refreshed_at + expires_in - now = 3900 > 300, yet get_valid_access_token
issues a refresh network call and returns the rotated token "tokB" instead
of the stored token "tokA" (the 55-minute cap `time_since_refresh >= 3300`
fires). -/
theorem c1_counterexample :
    (1000 : Int) + 7200 - 4300 > 300 ∧
    (youtube_get_valid_access_token (some ytLongLived) (some ytRefreshReply) 4300).netCalls
      = 1 ∧
    (youtube_get_valid_access_token (some ytLongLived) (some ytRefreshReply) 4300).token
      = some "tokB" := by
  refine ⟨by decide, by decide, by decide⟩

/-- C1 (amended): when the stored record's remaining validity exceeds the
300-second buffer, get_valid_access_token returns the stored access_token
unchanged, leaves the store unchanged and performs no refresh network
call — so a second immediate call returns the identical token and the two
calls trigger zero refresh calls — for Reddit and Spotify
unconditionally; for YouTube only under the additional conditions
refreshed_at ≠ 0, expires_in > 300 and now - refreshed_at < 3300 (its
check is not the remaining-validity comparison, as the counterexample
shows). -/
theorem c1_fresh_token_returned_unchanged :
    (∀ (tokens : TokenRecord) (e : Int) (credsOk : Bool)
        (net : Option RefreshResponse) (now : Int),
      tokens.expires_at = some e → e - now > 300 →
      reddit_get_valid_access_token (some tokens) credsOk net now
        = ⟨tokens.access_token, 1, 0, some tokens⟩) ∧
    (∀ (tokens : TokenRecord) (e : Int) (credsOk : Bool)
        (net : Option RefreshResponse) (now : Int),
      tokens.expires_at = some e → e - now > 300 →
      spotify_get_valid_access_token (some tokens) credsOk net now
        = ⟨tokens.access_token, 1, 0, some tokens⟩) ∧
    (∀ (tokens : TokenRecord) (tok : String) (ei ra : Int)
        (net : Option RefreshResponse) (now : Int),
      tokens.access_token = some tok → tokens.expires_in = some ei →
      tokens.refreshed_at = some ra → ra ≠ 0 → ei > 300 →
      now - ra < 3300 → ra + ei - now > 300 →
      youtube_get_valid_access_token (some tokens) net now
        = ⟨some tok, 1, 0, some tokens⟩) := by
  refine ⟨?_, ?_, ?_⟩
  · intro tokens e credsOk net now he hrem
    have hlt : now < e - 300 := by omega
    simp [reddit_get_valid_access_token, he, hlt]
  · intro tokens e credsOk net now he hrem
    have hexp : spotify_is_token_expired tokens now = false := by
      simp [spotify_is_token_expired, he]
      omega
    simp [spotify_get_valid_access_token, hexp]
  · intro tokens tok ei ra net now htok hei hra hra0 hei300 hcap hrem
    have hneed : youtubeNeedsRefresh tokens now = false := by
      simp [youtubeNeedsRefresh, hei, hra]
      omega
    simp [youtube_get_valid_access_token, htok, hneed]

/-- Witness for C1: the three amended statements at concrete fresh
records (Reddit and Spotify with expires_at 1000 at time 0, YouTube with
refreshed_at 50, expires_in 3600 at time 100). -/
theorem c1_fresh_token_returned_unchanged_witness :
    reddit_get_valid_access_token (some redditFresh) true none 0
      = ⟨some "ra0", 1, 0, some redditFresh⟩ ∧
    spotify_get_valid_access_token (some spotifyFresh) true none 0
      = ⟨some "sa0", 1, 0, some spotifyFresh⟩ ∧
    youtube_get_valid_access_token (some ytFresh) none 100
      = ⟨some "ya0", 1, 0, some ytFresh⟩ :=
  ⟨c1_fresh_token_returned_unchanged.1 redditFresh 1000 true none 0
      rfl (by decide),
   c1_fresh_token_returned_unchanged.2.1 spotifyFresh 1000 true none 0
      rfl (by decide),
   c1_fresh_token_returned_unchanged.2.2 ytFresh "ya0" 3600 50 none 100
      rfl rfl rfl (by decide) (by decide) (by decide) (by decide)⟩

/-- C3 counterexample: the Reddit record stores refresh_token "old_rt";
a refresh whose reply contains an access token but omits refresh_token
persists a record with **no** refresh_token — the previously stored value
is not preserved (save_tokens writes the bare response dictionary). -/
theorem c3_counterexample :
    redditOldRT.refresh_token = some "old_rt" ∧
    redditReplyNoRT.refresh_token = none ∧
    (reddit_get_valid_access_token (some redditOldRT) true (some redditReplyNoRT) 900).netCalls
      = 1 ∧
    storeRefreshToken
      (reddit_get_valid_access_token (some redditOldRT) true (some redditReplyNoRT) 900).store
      = none := by
  refine ⟨by decide, by decide, by decide, by decide⟩

/-- C3 (amended): for Spotify and YouTube, a refresh reply omitting
refresh_token preserves the previously stored refresh_token in the
persisted record, and a reply including a new refresh_token overwrites
it; for Reddit, the persisted record's refresh_token is exactly the
reply's (so the stored value is lost whenever the reply omits it). -/
theorem c3_refresh_token_rotation :
    (∀ (tokens : TokenRecord) (rt : String) (r : RefreshResponse) (now : Int),
      tokens.refresh_token = some rt → r.access_token.isSome = true →
      r.refresh_token = none →
      storeRefreshToken
        (spotify_refresh_access_token (some tokens) true (some r) now).store
        = some rt) ∧
    (∀ (tokens : TokenRecord) (r : RefreshResponse) (nrt : String) (now : Int),
      tokens.refresh_token.isSome = true → r.access_token.isSome = true →
      r.refresh_token = some nrt →
      storeRefreshToken
        (spotify_refresh_access_token (some tokens) true (some r) now).store
        = some nrt) ∧
    (∀ (tokens : TokenRecord) (r : RefreshResponse) (t : String) (now : Int),
      tokens.client_id.isSome = true → tokens.client_secret.isSome = true →
      tokens.refresh_token.isSome = true → r.access_token = some t →
      r.refresh_token = none →
      storeRefreshToken
        (youtube_refresh_access_token (some tokens) (some r) now).store
        = tokens.refresh_token) ∧
    (∀ (tokens : TokenRecord) (r : RefreshResponse) (t nrt : String) (now : Int),
      tokens.client_id.isSome = true → tokens.client_secret.isSome = true →
      tokens.refresh_token.isSome = true → r.access_token = some t →
      r.refresh_token = some nrt →
      storeRefreshToken
        (youtube_refresh_access_token (some tokens) (some r) now).store
        = some nrt) ∧
    (∀ (r : RefreshResponse) (t : String) (now : Int)
        (store : Option TokenRecord),
      r.access_token = some t →
      storeRefreshToken (reddit_refresh_token true (some r) now store).store
        = r.refresh_token) := by
  refine ⟨?_, ?_, ?_, ?_, ?_⟩
  · intro tokens rt r now hrt hacc hnone
    obtain ⟨t, ht⟩ := Option.isSome_iff_exists.mp hacc
    simp [spotify_refresh_access_token, spotifySaveTokens, recordOfResponse,
      storeRefreshToken, hrt, hnone, ht]
    cases h : r.expires_in <;> simp
  · intro tokens r nrt now hrt hacc hsome
    obtain ⟨t, ht⟩ := Option.isSome_iff_exists.mp hacc
    obtain ⟨rt0, hrt0⟩ := Option.isSome_iff_exists.mp hrt
    simp [spotify_refresh_access_token, spotifySaveTokens, recordOfResponse,
      storeRefreshToken, hrt0, hsome, ht]
    cases h : r.expires_in <;> simp
  · intro tokens r t now hci hcs hrt hacc hnone
    simp [youtube_refresh_access_token, dictUpdate, storeRefreshToken,
      hci, hcs, hrt, hacc, hnone]
  · intro tokens r t nrt now hci hcs hrt hacc hsome
    simp [youtube_refresh_access_token, dictUpdate, storeRefreshToken,
      hci, hcs, hrt, hacc, hsome]
  · intro r t now store hacc
    simp [reddit_refresh_token, redditSaveTokens, recordOfResponse,
      storeRefreshToken, hacc]
    cases h : r.expires_in <;> simp

/-- Witness for C3: all five amended statements at concrete records and
replies. -/
theorem c3_refresh_token_rotation_witness :
    storeRefreshToken
      (spotify_refresh_access_token (some spotifyStale) true (some redditReplyNoRT) 0).store
      = some "rtS" ∧
    storeRefreshToken
      (spotify_refresh_access_token (some spotifyStale) true (some okReply) 0).store
      = some "freshrt" ∧
    storeRefreshToken
      (youtube_refresh_access_token (some ytStale) (some redditReplyNoRT) 0).store
      = ytStale.refresh_token ∧
    storeRefreshToken
      (youtube_refresh_access_token (some ytStale) (some okReply) 0).store
      = some "freshrt" ∧
    storeRefreshToken (reddit_refresh_token true (some okReply) 0 none).store
      = okReply.refresh_token :=
  ⟨c3_refresh_token_rotation.1 spotifyStale "rtS" redditReplyNoRT 0
      rfl (by decide) rfl,
   c3_refresh_token_rotation.2.1 spotifyStale okReply "freshrt" 0
      (by decide) (by decide) rfl,
   c3_refresh_token_rotation.2.2.1 ytStale redditReplyNoRT "a1" 0
      (by decide) (by decide) (by decide) rfl rfl,
   c3_refresh_token_rotation.2.2.2.1 ytStale okReply "fresh" "freshrt" 0
      (by decide) (by decide) (by decide) rfl rfl,
   c3_refresh_token_rotation.2.2.2.2 okReply "fresh" 0 none rfl⟩

/-- C4 counterexample: a stale YouTube record with a dead refresh token
(the endpoint answers with a permanent-error body carrying no
access_token) still yields a token: get_valid_access_token issues the
refresh, the refresh fails, and the stale stored token "staleTok" is
returned to the caller instead of an authentication-required failure. -/
theorem c4_counterexample :
    ytDeniedReply.access_token = none ∧
    (youtube_get_valid_access_token (some ytStale) (some ytDeniedReply) 5000).netCalls
      = 1 ∧
    (youtube_get_valid_access_token (some ytStale) (some ytDeniedReply) 5000).token
      = some "staleTok" := by
  refine ⟨by decide, by decide, by decide⟩

/-- C4 (amended): when the refresh attempt fails with a permanent
authorization error (an error body with no access_token), the YouTube
resolver returns the stale stored access_token rather than surfacing an
authentication-required failure; the entry point reports
authentication-required (no token) only when the store yields nothing and
no environment token exists. -/
theorem c4_permanent_error_returns_stale :
    (∀ (tokens : TokenRecord) (tok : String) (r : RefreshResponse) (now : Int),
      tokens.access_token = some tok → youtubeNeedsRefresh tokens now = true →
      r.access_token = none →
      (youtube_get_valid_access_token (some tokens) (some r) now).token
        = some tok) ∧
    (∀ (ov : Option String) (net : Option RefreshResponse) (now : Int),
      overrideValid ov = false →
      youtube_get_valid_oauth_token ov none net none now = ⟨none, 1, 0⟩) := by
  constructor
  · intro tokens tok r now htok hneed herr
    have href :
        (youtube_refresh_access_token (some tokens) (some r) now).token = none := by
      simp only [youtube_refresh_access_token]
      split
      · simp [herr]
      · rfl
    simp [youtube_get_valid_access_token, htok, hneed, href]
  · intro ov net now h
    simp [youtube_get_valid_oauth_token, h, youtube_get_valid_access_token]

/-- Witness for C4: the stale record with the permanent-error reply, and
the empty entry-point call. -/
theorem c4_permanent_error_returns_stale_witness :
    (youtube_get_valid_access_token (some ytStale) (some ytDeniedReply) 5000).token
      = some "staleTok" ∧
    youtube_get_valid_oauth_token none none (some ytDeniedReply) none 5000
      = ⟨none, 1, 0⟩ :=
  ⟨c4_permanent_error_returns_stale.1 ytStale "staleTok" ytDeniedReply 5000
      rfl (by decide) rfl,
   c4_permanent_error_returns_stale.2 none (some ytDeniedReply) 5000 (by decide)⟩

/-- C5 counterexample: a stale Spotify record (remaining validity 100
seconds) with a transient refresh failure (transport error, no response)
yields no token at all: get_valid_access_token returns None instead of
the stale stored token "staleS". -/
theorem c5_counterexample :
    spotifyStale.access_token = some "staleS" ∧
    (spotify_get_valid_access_token (some spotifyStale) true none 900).netCalls
      = 1 ∧
    (spotify_get_valid_access_token (some spotifyStale) true none 900).token
      = none := by
  refine ⟨by decide, by decide, by decide⟩

/-- C5 (amended): on a transient (transport-level) refresh failure with a
stale record, only the YouTube resolver returns the stale stored
access_token; the Spotify and Reddit resolvers return no token. -/
theorem c5_transient_failure_stale_fallback :
    (∀ (tokens : TokenRecord) (tok : String) (now : Int),
      tokens.access_token = some tok → youtubeNeedsRefresh tokens now = true →
      (youtube_get_valid_access_token (some tokens) none now).token
        = some tok) ∧
    (∀ (tokens : TokenRecord) (credsOk : Bool) (now : Int),
      spotify_is_token_expired tokens now = true →
      (spotify_get_valid_access_token (some tokens) credsOk none now).token
        = none) ∧
    (∀ (tokens : TokenRecord) (e : Int) (credsOk : Bool) (now : Int),
      tokens.expires_at = some e → now ≥ e - 300 →
      (reddit_get_valid_access_token (some tokens) credsOk none now).token
        = none) := by
  refine ⟨?_, ?_, ?_⟩
  · intro tokens tok now htok hneed
    have href :
        (youtube_refresh_access_token (some tokens) none now).token = none := by
      simp only [youtube_refresh_access_token]
      split <;> rfl
    simp [youtube_get_valid_access_token, htok, hneed, href]
  · intro tokens credsOk now hexp
    have href :
        (spotify_refresh_access_token (some tokens) credsOk none now).token
          = none := by
      simp only [spotify_refresh_access_token]
      split
      · rfl
      · split <;> rfl
    simp [spotify_get_valid_access_token, hexp, href]
  · intro tokens e credsOk now he hexp
    have hnlt : ¬ now < e - 300 := by omega
    have href : ∀ (st : Option TokenRecord),
        (reddit_refresh_token credsOk none now st).token = none := by
      intro st
      simp only [reddit_refresh_token]
      split <;> rfl
    cases hrt : tokens.refresh_token <;>
      simp [reddit_get_valid_access_token, he, hnlt, hrt, href]

/-- Witness for C5: the three amended statements at concrete stale
records at time 900 (remaining validity 100 seconds), with a transport
failure. -/
theorem c5_transient_failure_stale_fallback_witness :
    (youtube_get_valid_access_token (some ytStale) none 5000).token
      = some "staleTok" ∧
    (spotify_get_valid_access_token (some spotifyStale) true none 900).token
      = none ∧
    (reddit_get_valid_access_token (some redditOldRT) true none 900).token
      = none :=
  ⟨c5_transient_failure_stale_fallback.1 ytStale "staleTok" 5000
      rfl (by decide),
   c5_transient_failure_stale_fallback.2.1 spotifyStale true 900 (by decide),
   c5_transient_failure_stale_fallback.2.2 redditOldRT 1000 true 900
      rfl (by decide)⟩

/-- C6 counterexample: a stored Spotify record with no refreshed_at field
but a far-future expires_at is treated as valid: no refresh is attempted
and the stored token is returned, contradicting the claim that a missing
refreshed_at makes every provider treat the record as expired. -/
theorem c6_counterexample :
    spotifyNoRefreshedAt.refreshed_at = none ∧
    spotify_is_token_expired spotifyNoRefreshedAt 0 = false ∧
    (spotify_get_valid_access_token (some spotifyNoRefreshedAt) true (some okReply) 0).netCalls
      = 0 ∧
    (spotify_get_valid_access_token (some spotifyNoRefreshedAt) true (some okReply) 0).token
      = some "x" := by
  refine ⟨by decide, by decide, by decide, by decide⟩

/-- The Python return value of the Reddit refresh helper does not depend
on the prior store contents. -/
theorem reddit_refresh_token_ignores_store (credsOk : Bool)
    (net : Option RefreshResponse) (now : Int) (s1 s2 : Option TokenRecord) :
    (reddit_refresh_token credsOk net now s1).token
      = (reddit_refresh_token credsOk net now s2).token := by
  simp only [reddit_refresh_token]
  split
  · rfl
  · cases net with
    | none => rfl
    | some r => cases hr : r.access_token <;> simp [hr]

/-- C6 (amended): only YouTube's validity check treats a record whose
refreshed_at is zero or missing as already expired regardless of
expires_in; the Spotify and Reddit checks are insensitive to refreshed_at
(their results are unchanged under any rewrite of that field) and instead
treat a record with a missing expires_at as already expired. -/
theorem c6_zero_refreshed_at_expired :
    (∀ (tokens : TokenRecord) (now : Int),
      tokens.refreshed_at = some 0 ∨ tokens.refreshed_at = none →
      youtubeNeedsRefresh tokens now = true) ∧
    (∀ (tokens : TokenRecord) (ra : Option Int) (now : Int),
      spotify_is_token_expired { tokens with refreshed_at := ra } now
        = spotify_is_token_expired tokens now) ∧
    (∀ (tokens : TokenRecord) (now : Int),
      tokens.expires_at = none → spotify_is_token_expired tokens now = true) ∧
    (∀ (tokens : TokenRecord) (ra : Option Int) (credsOk : Bool)
        (net : Option RefreshResponse) (now : Int),
      (reddit_get_valid_access_token (some { tokens with refreshed_at := ra })
          credsOk net now).token
        = (reddit_get_valid_access_token (some tokens) credsOk net now).token) ∧
    (∀ (tokens : TokenRecord) (credsOk : Bool) (net : Option RefreshResponse)
        (now : Int),
      tokens.expires_at = none → tokens.refresh_token = none →
      (reddit_get_valid_access_token (some tokens) credsOk net now).token
        = none ∨ now < -300) := by
  refine ⟨?_, ?_, ?_, ?_, ?_⟩
  · intro tokens now h
    rcases h with h | h <;> simp [youtubeNeedsRefresh, h]
  · intro tokens ra now
    simp [spotify_is_token_expired]
  · intro tokens now h
    simp [spotify_is_token_expired, h]
  · intro tokens ra credsOk net now
    simp only [reddit_get_valid_access_token]
    split
    · rfl
    · cases hrt : tokens.refresh_token <;> simp [hrt]
      exact reddit_refresh_token_ignores_store credsOk net now _ _
  · intro tokens credsOk net now he hrt
    by_cases hlt : now < -300
    · exact Or.inr hlt
    · left
      simp [reddit_get_valid_access_token, he, hrt, hlt]

/-- Witness for C6: the five amended statements at concrete inputs. -/
theorem c6_zero_refreshed_at_expired_witness :
    youtubeNeedsRefresh spotifyNoRefreshedAt 0 = true ∧
    spotify_is_token_expired { spotifyStale with refreshed_at := some 0 } 0
      = spotify_is_token_expired spotifyStale 0 ∧
    spotify_is_token_expired { access_token := some "x" } 0 = true ∧
    (reddit_get_valid_access_token (some { redditOldRT with refreshed_at := some 0 })
        true none 0).token
      = (reddit_get_valid_access_token (some redditOldRT) true none 0).token ∧
    ((reddit_get_valid_access_token (some { access_token := some "x" }) true none 0).token
        = none ∨ (0 : Int) < -300) :=
  ⟨c6_zero_refreshed_at_expired.1 spotifyNoRefreshedAt 0 (Or.inr rfl),
   c6_zero_refreshed_at_expired.2.1 spotifyStale (some 0) 0,
   c6_zero_refreshed_at_expired.2.2.1 { access_token := some "x" } 0 rfl,
   c6_zero_refreshed_at_expired.2.2.2.1 redditOldRT (some 0) true none 0,
   c6_zero_refreshed_at_expired.2.2.2.2 { access_token := some "x" } true none 0
      rfl rfl⟩

/-- C7: the authorization-code completion tools take only the
authorization code — the CSRF state generated by setup never reaches them
and no comparison against the callback's state exists — so even when the
callback's state differs from the generated nonce, the code-for-token
exchange is attempted and no security error is raised, for both Reddit
and Spotify. -/
theorem c7_state_mismatch_not_detected (genState cbState code : String)
    (h : genState ≠ cbState) (net : Option RefreshResponse) (now : Int)
    (store : Option TokenRecord) :
    (redditOauthCallback genState cbState code net now store).exchangeAttempted
      = true ∧
    (redditOauthCallback genState cbState code net now store).securityError
      = false ∧
    (spotifyOauthCallback genState cbState code net now store).exchangeAttempted
      = true ∧
    (spotifyOauthCallback genState cbState code net now store).securityError
      = false := by
  unfold redditOauthCallback spotifyOauthCallback complete_reddit_oauth
    complete_spotify_oauth
  cases net <;> simp

/-- Witness for C7: a callback whose state "xyz" differs from the
generated nonce "abc" still exchanges the code successfully. -/
theorem c7_state_mismatch_not_detected_witness :
    (redditOauthCallback "abc" "xyz" "code0" (some okReply) 0 none).exchangeAttempted
      = true ∧
    (redditOauthCallback "abc" "xyz" "code0" (some okReply) 0 none).securityError
      = false ∧
    (spotifyOauthCallback "abc" "xyz" "code0" (some okReply) 0 none).exchangeAttempted
      = true ∧
    (spotifyOauthCallback "abc" "xyz" "code0" (some okReply) 0 none).securityError
      = false :=
  c7_state_mismatch_not_detected "abc" "xyz" "code0" (by decide)
    (some okReply) 0 none

/-- Helper: a polling loop whose endpoint never answers with an
access_token ends in a non-success result, whatever the starting fuel,
index, interval and elapsed time. -/
theorem pollLoop_no_grant_fails (responses : Nat → PollResponse)
    (h : ∀ i, (responses i).isGranted = false) :
    ∀ (fuel idx interval elapsed : Nat),
      (pollLoop responses fuel idx interval elapsed).isFailure = true := by
  intro fuel
  induction fuel with
  | zero => intro idx interval elapsed; rfl
  | succ n ih =>
    intro idx interval elapsed
    have hi := h idx
    cases hr : responses idx with
    | granted r => rw [hr] at hi; simp [PollResponse.isGranted] at hi
    | pending => simp [pollLoop, hr, ih]
    | slowDown => simp [pollLoop, hr, ih]
    | otherError => simp [pollLoop, hr, PollResult.isFailure]
    | exn => simp [pollLoop, hr, ih]

/-- C9 counterexample: with the default 5-second interval and an endpoint
answering slow_down to every poll, the run does terminate (after the
60-attempt cap) but only after 2130 seconds of sleeping — more than the
1800-second expires_in window the claim names as the bound (the loop
never reads expires_in at all). -/
theorem c9_counterexample :
    poll_for_token allSlowDown = PollResult.timeout 2130 ∧ 1800 < 2130 := by
  exact ⟨by decide, by decide⟩

/-- C9 (amended): a device-code polling run whose token endpoint never
returns an access_token always terminates with a non-success result (the
timeout return after the fixed 60-attempt cap, or the immediate empty
return on a terminal error body); the bound is the attempt cap, not the
provider-declared expires_in window, and the elapsed sleep time can
exceed 1800 seconds. -/
theorem c9_polling_terminates (responses : Nat → PollResponse)
    (h : ∀ i, (responses i).isGranted = false) (interval : Nat) :
    (poll_for_token responses interval).isFailure = true :=
  pollLoop_no_grant_fails responses h 60 0 interval 0

/-- Witness for C9: an endpoint answering authorization_pending forever
makes the run fail (time out) rather than succeed or loop. -/
theorem c9_polling_terminates_witness :
    (poll_for_token (fun _ => PollResponse.pending) 5).isFailure = true :=
  c9_polling_terminates (fun _ => PollResponse.pending) (fun _ => rfl) 5

end PersonalizationMCP
